import Mathlib

/-!
Verification of the loss-function family in `src/model/loss.hpp` (namespace
`libcf`).  Doubles are modelled as real numbers; `std::exp`, `std::log` and
`std::log1p` are modelled by `Real.exp` and `Real.log` (with
`log1p x = log (1 + x)`).  The `CHECK` assertion macros of `LogisticLoss`
abort the computation on failure; they are modelled by an `Option` result
(`none` = fatal precondition failure).  The polymorphic `Loss` interface is
modelled as a structure whose operations all return `Option ℝ`, the
non-checking variants being wrapped with `some`.  The C++ `LossType` enum has
underlying type `int`, which can carry values outside the six declared tags,
so the tag is modelled as `ℤ` with the six named constants.
-/

namespace libcf

/-- The `LossType` enum of `loss.hpp`; the underlying C++ type is `int`. -/
abbrev LossType := ℤ

def SQUARE : LossType := 0

def LOGISTIC : LossType := 1

def LOG : LossType := 2

def HINGE : LossType := 3

def SQUARED_HINGE : LossType := 4

def CROSS_ENTROPY : LossType := 5

/-- The abstract `Loss` interface: `loss_type`, `evaluate`, `gradient`,
`predict`.  Operations return `Option ℝ`; `none` models a fatal `CHECK`
failure. -/
structure Loss where
  loss_type : String
  evaluate : ℝ → ℝ → Option ℝ
  gradient : ℝ → ℝ → Option ℝ
  predict : ℝ → Option ℝ

namespace SquareLoss

def loss_type : String := "Square"

def evaluate (pred truth : ℝ) : ℝ :=
  let err := truth - pred
  err * err

def gradient (pred truth : ℝ) : ℝ :=
  -2 * (truth - pred)

def predict (x : ℝ) : ℝ := x

end SquareLoss

namespace LogisticLoss

def loss_type : String := "Logistic"

noncomputable def evaluate (pred truth : ℝ) : Option ℝ :=
  if (0 ≤ pred ∧ pred ≤ 1) ∧ (truth = 1 ∨ truth = 0) then
    some (if truth = 0 then -Real.log (max 0.0001 (1 - pred))
          else if truth = 1 then -Real.log (max 0.0001 pred)
          else 0)
  else none

noncomputable def gradient (pred truth : ℝ) : Option ℝ :=
  if (0 < pred ∧ pred < 1) ∧ (truth = 1 ∨ truth = 0) then
    some ((pred - truth) / (pred * (1 - pred)))
  else none

def predict (x : ℝ) : ℝ := x

end LogisticLoss

namespace CrossEntropyLoss

def loss_type : String := "CrossEntropy"

noncomputable def evaluate (pred truth : ℝ) : ℝ :=
  let ret := (1 - truth) * pred
  if pred > 18 then ret + Real.exp (-pred)
  else if pred < -18 then ret - pred
  else ret + Real.log (1 + Real.exp (-pred))

noncomputable def gradient (pred truth : ℝ) : ℝ :=
  if pred < -18 then Real.exp pred - truth
  else if pred > 18 then 1 - truth
  else 1 / (1 + Real.exp (-pred)) - truth

noncomputable def predict (x : ℝ) : ℝ :=
  1 / (1 + Real.exp (-x))

end CrossEntropyLoss

namespace LogLoss

def loss_type : String := "Log"

noncomputable def evaluate (pred truth : ℝ) : ℝ :=
  let z := pred * truth
  if z > 18 then Real.exp (-z)
  else if z < -18 then -z
  else Real.log (1 + Real.exp (-z))

noncomputable def gradient (pred truth : ℝ) : ℝ :=
  let z := pred * truth
  if z > 18 then -truth * Real.exp (-z)
  else if z < -18 then -truth
  else -truth / (1 + Real.exp z)

def predict (x : ℝ) : ℝ := x

end LogLoss

namespace HingeLoss

def loss_type : String := "Hinge"

noncomputable def evaluate (pred truth : ℝ) : ℝ :=
  let z := pred * truth
  if z > 1 then 0
  else 1 - z

noncomputable def gradient (pred truth : ℝ) : ℝ :=
  let z := pred * truth
  if z > 1 then 0
  else -truth

def predict (x : ℝ) : ℝ := x

end HingeLoss

namespace SquaredHingeLoss

def loss_type : String := "SquaredHinge"

noncomputable def evaluate (pred truth : ℝ) : ℝ :=
  let z := pred * truth
  if z > 1 then 0
  else
    let d := 1 - z
    0.5 * d * d

noncomputable def gradient (pred truth : ℝ) : ℝ :=
  let z := pred * truth
  if z > 1 then 0
  else -truth * (1 - z)

def predict (x : ℝ) : ℝ := x

end SquaredHingeLoss

noncomputable def squareLoss : Loss where
  loss_type := SquareLoss.loss_type
  evaluate := fun pred truth => some (SquareLoss.evaluate pred truth)
  gradient := fun pred truth => some (SquareLoss.gradient pred truth)
  predict := fun x => some (SquareLoss.predict x)

noncomputable def logisticLoss : Loss where
  loss_type := LogisticLoss.loss_type
  evaluate := LogisticLoss.evaluate
  gradient := LogisticLoss.gradient
  predict := fun x => some (LogisticLoss.predict x)

noncomputable def crossEntropyLoss : Loss where
  loss_type := CrossEntropyLoss.loss_type
  evaluate := fun pred truth => some (CrossEntropyLoss.evaluate pred truth)
  gradient := fun pred truth => some (CrossEntropyLoss.gradient pred truth)
  predict := fun x => some (CrossEntropyLoss.predict x)

noncomputable def logLoss : Loss where
  loss_type := LogLoss.loss_type
  evaluate := fun pred truth => some (LogLoss.evaluate pred truth)
  gradient := fun pred truth => some (LogLoss.gradient pred truth)
  predict := fun x => some (LogLoss.predict x)

noncomputable def hingeLoss : Loss where
  loss_type := HingeLoss.loss_type
  evaluate := fun pred truth => some (HingeLoss.evaluate pred truth)
  gradient := fun pred truth => some (HingeLoss.gradient pred truth)
  predict := fun x => some (HingeLoss.predict x)

noncomputable def squaredHingeLoss : Loss where
  loss_type := SquaredHingeLoss.loss_type
  evaluate := fun pred truth => some (SquaredHingeLoss.evaluate pred truth)
  gradient := fun pred truth => some (SquaredHingeLoss.gradient pred truth)
  predict := fun x => some (SquaredHingeLoss.predict x)

/-- The factory `Loss::create`: a switch on the tag, every unrecognized value
falling through to the `default: new SquareLoss()` case. -/
noncomputable def Loss.create (lt : LossType) : Loss :=
  if lt = SQUARE then squareLoss
  else if lt = LOGISTIC then logisticLoss
  else if lt = CROSS_ENTROPY then crossEntropyLoss
  else if lt = LOG then logLoss
  else if lt = HINGE then hingeLoss
  else if lt = SQUARED_HINGE then squaredHingeLoss
  else squareLoss

/-- Claim C6: for the Square variant, `evaluate(pred, truth) = (truth − pred)²`
and `gradient(pred, truth) = −2·(truth − pred)` for all inputs; in particular
`evaluate(3,5) = 4` and `gradient(3,5) = −4`. -/
theorem squareLoss_spec :
    (∀ pred truth : ℝ, SquareLoss.evaluate pred truth = (truth - pred) ^ 2 ∧
      SquareLoss.gradient pred truth = -2 * (truth - pred)) ∧
    SquareLoss.evaluate 3 5 = 4 ∧ SquareLoss.gradient 3 5 = -4 := by
  refine ⟨fun pred truth => ⟨?_, rfl⟩, ?_, ?_⟩
  · simp only [SquareLoss.evaluate]; ring
  · simp only [SquareLoss.evaluate]; norm_num
  · simp only [SquareLoss.gradient]; norm_num

/-- Claim C7: for the Hinge variant with `truth ∈ {−1, 1}` and `z = pred·truth`:
if `z > 1` then evaluate and gradient are both `0`, otherwise evaluate is
`1 − z` and gradient is `−truth`. -/
theorem hingeLoss_spec :
    ∀ pred truth : ℝ, truth = -1 ∨ truth = 1 →
      (pred * truth > 1 →
        HingeLoss.evaluate pred truth = 0 ∧ HingeLoss.gradient pred truth = 0) ∧
      (¬pred * truth > 1 →
        HingeLoss.evaluate pred truth = 1 - pred * truth ∧
        HingeLoss.gradient pred truth = -truth) := by
  intro pred truth _
  constructor
  · intro h
    constructor
    · simp only [HingeLoss.evaluate]; rw [if_pos h]
    · simp only [HingeLoss.gradient]; rw [if_pos h]
  · intro h
    constructor
    · simp only [HingeLoss.evaluate]; rw [if_neg h]
    · simp only [HingeLoss.gradient]; rw [if_neg h]

/-- Witness for Claim C7 at the inputs named by the claim:
`evaluate(2,1) = 0`, `evaluate(0,1) = 1`, `gradient(0,1) = −1`. -/
theorem hingeLoss_spec_witness :
    HingeLoss.evaluate 2 1 = 0 ∧ HingeLoss.evaluate 0 1 = 1 ∧
    HingeLoss.gradient 0 1 = -1 := by
  have h2 := hingeLoss_spec 2 1 (Or.inr rfl)
  have h0 := hingeLoss_spec 0 1 (Or.inr rfl)
  refine ⟨(h2.1 (by norm_num)).1, ?_, ?_⟩
  · rw [(h0.2 (by norm_num)).1]; norm_num
  · rw [(h0.2 (by norm_num)).2]

/-- Claim C8: for the SquaredHinge variant,
`evaluate(pred, truth) = 0.5·max(0, 1 − pred·truth)²` everywhere, the value at
the margin boundary `pred·truth = 1` is `0`, and the one-sided limit of the
loss from below the boundary is also `0` (continuity at the margin). -/
theorem squaredHingeLoss_spec :
    (∀ pred truth : ℝ,
      SquaredHingeLoss.evaluate pred truth = 0.5 * max 0 (1 - pred * truth) ^ 2) ∧
    SquaredHingeLoss.evaluate 1 1 = 0 ∧
    Filter.Tendsto (fun pred : ℝ => SquaredHingeLoss.evaluate pred 1)
      (nhdsWithin 1 (Set.Iio 1)) (nhds 0) := by
  have key : ∀ pred truth : ℝ,
      SquaredHingeLoss.evaluate pred truth = 0.5 * max 0 (1 - pred * truth) ^ 2 := by
    intro pred truth
    simp only [SquaredHingeLoss.evaluate]
    split_ifs with h
    · rw [max_eq_left (by linarith)]; ring
    · rw [max_eq_right (by linarith)]; ring
  refine ⟨key, by rw [key]; norm_num, ?_⟩
  have hcont : Continuous fun pred : ℝ => 0.5 * max 0 (1 - pred * 1) ^ 2 := by
    apply continuous_const.mul
    exact (continuous_const.max (continuous_const.sub (continuous_id.mul continuous_const))).pow 2
  have h1 : Filter.Tendsto (fun pred : ℝ => 0.5 * max 0 (1 - pred * 1) ^ 2)
      (nhds 1) (nhds 0) := by
    have h := hcont.tendsto 1
    have hval : (0.5 : ℝ) * max 0 (1 - (1 : ℝ) * 1) ^ 2 = 0 := by norm_num
    simpa [hval] using h
  simp only [key]
  exact h1.mono_left nhdsWithin_le_nhds

/-- Claim C1: the three-branch evaluate of the CrossEntropy variant
(`(1−truth)·pred + exp(−pred)` above 18, `(1−truth)·pred − pred` below −18,
`(1−truth)·pred + log1p(exp(−pred))` otherwise), its three-branch gradient
(`1−truth`, `exp(pred)−truth`, `sigmoid(pred)−truth`), and its sigmoid
predict. -/
theorem crossEntropyLoss_spec :
    (∀ pred truth : ℝ,
      (pred > 18 →
        CrossEntropyLoss.evaluate pred truth = (1 - truth) * pred + Real.exp (-pred)) ∧
      (pred < -18 →
        CrossEntropyLoss.evaluate pred truth = (1 - truth) * pred - pred) ∧
      (¬pred > 18 → ¬pred < -18 →
        CrossEntropyLoss.evaluate pred truth =
          (1 - truth) * pred + Real.log (1 + Real.exp (-pred))) ∧
      (pred > 18 → CrossEntropyLoss.gradient pred truth = 1 - truth) ∧
      (pred < -18 → CrossEntropyLoss.gradient pred truth = Real.exp pred - truth) ∧
      (¬pred > 18 → ¬pred < -18 →
        CrossEntropyLoss.gradient pred truth = 1 / (1 + Real.exp (-pred)) - truth)) ∧
    (∀ x : ℝ, CrossEntropyLoss.predict x = 1 / (1 + Real.exp (-x))) := by
  refine ⟨fun pred truth => ⟨?_, ?_, ?_, ?_, ?_, ?_⟩, fun x => rfl⟩
  · intro h
    simp only [CrossEntropyLoss.evaluate]; rw [if_pos h]
  · intro h
    simp only [CrossEntropyLoss.evaluate]
    rw [if_neg (by linarith), if_pos h]
  · intro h1 h2
    simp only [CrossEntropyLoss.evaluate]
    rw [if_neg h1, if_neg h2]
  · intro h
    simp only [CrossEntropyLoss.gradient]
    rw [if_neg (by linarith), if_pos h]
  · intro h
    simp only [CrossEntropyLoss.gradient]; rw [if_pos h]
  · intro h1 h2
    simp only [CrossEntropyLoss.gradient]
    rw [if_neg h2, if_neg h1]

/-- Witness for Claim C1: every branch of evaluate and gradient, and predict,
exercised at `pred = 19`, `−19` and `0` with `truth = 0`. -/
theorem crossEntropyLoss_spec_witness :
    CrossEntropyLoss.evaluate 19 0 = (1 - 0) * 19 + Real.exp (-19) ∧
    CrossEntropyLoss.evaluate (-19) 0 = (1 - 0) * (-19) - (-19) ∧
    CrossEntropyLoss.evaluate 0 0 = (1 - 0) * 0 + Real.log (1 + Real.exp (-0)) ∧
    CrossEntropyLoss.gradient 19 0 = 1 - 0 ∧
    CrossEntropyLoss.gradient (-19) 0 = Real.exp (-19) - 0 ∧
    CrossEntropyLoss.gradient 0 0 = 1 / (1 + Real.exp (-0)) - 0 ∧
    CrossEntropyLoss.predict 0 = 1 / (1 + Real.exp (-0)) := by
  have hp := (crossEntropyLoss_spec.1 19 0)
  have hn := (crossEntropyLoss_spec.1 (-19) 0)
  have hm := (crossEntropyLoss_spec.1 0 0)
  exact ⟨hp.1 (by norm_num), hn.2.1 (by norm_num),
    hm.2.2.1 (by norm_num) (by norm_num), hp.2.2.2.1 (by norm_num),
    hn.2.2.2.2.1 (by norm_num), hm.2.2.2.2.2 (by norm_num) (by norm_num),
    crossEntropyLoss_spec.2 0⟩

/-- Claim C2: the Log variant with `z = pred·truth`: evaluate is `exp(−z)`
above 18, `−z` below −18, `log1p(exp(−z))` otherwise; gradient is
`−truth·exp(−z)`, `−truth`, `−truth/(1+exp(z))` on the same branches; predict
is the identity. -/
theorem logLoss_spec :
    (∀ pred truth : ℝ,
      (pred * truth > 18 → LogLoss.evaluate pred truth = Real.exp (-(pred * truth))) ∧
      (pred * truth < -18 → LogLoss.evaluate pred truth = -(pred * truth)) ∧
      (¬pred * truth > 18 → ¬pred * truth < -18 →
        LogLoss.evaluate pred truth = Real.log (1 + Real.exp (-(pred * truth)))) ∧
      (pred * truth > 18 →
        LogLoss.gradient pred truth = -truth * Real.exp (-(pred * truth))) ∧
      (pred * truth < -18 → LogLoss.gradient pred truth = -truth) ∧
      (¬pred * truth > 18 → ¬pred * truth < -18 →
        LogLoss.gradient pred truth = -truth / (1 + Real.exp (pred * truth)))) ∧
    (∀ x : ℝ, LogLoss.predict x = x) := by
  refine ⟨fun pred truth => ⟨?_, ?_, ?_, ?_, ?_, ?_⟩, fun x => rfl⟩
  · intro h
    simp only [LogLoss.evaluate]; rw [if_pos h]
  · intro h
    simp only [LogLoss.evaluate]
    rw [if_neg (by linarith), if_pos h]
  · intro h1 h2
    simp only [LogLoss.evaluate]
    rw [if_neg h1, if_neg h2]
  · intro h
    simp only [LogLoss.gradient]; rw [if_pos h]
  · intro h
    simp only [LogLoss.gradient]
    rw [if_neg (by linarith), if_pos h]
  · intro h1 h2
    simp only [LogLoss.gradient]
    rw [if_neg h1, if_neg h2]

/-- Witness for Claim C2: every branch of evaluate and gradient, and predict,
exercised at `(pred, truth) = (19, 1)`, `(−19, 1)` and `(0, 1)`. -/
theorem logLoss_spec_witness :
    LogLoss.evaluate 19 1 = Real.exp (-(19 * 1)) ∧
    LogLoss.evaluate (-19) 1 = -((-19) * 1) ∧
    LogLoss.evaluate 0 1 = Real.log (1 + Real.exp (-(0 * 1))) ∧
    LogLoss.gradient 19 1 = -1 * Real.exp (-(19 * 1)) ∧
    LogLoss.gradient (-19) 1 = -1 ∧
    LogLoss.gradient 0 1 = -1 / (1 + Real.exp (0 * 1)) ∧
    LogLoss.predict 19 = 19 := by
  have hp := (logLoss_spec.1 19 1)
  have hn := (logLoss_spec.1 (-19) 1)
  have hm := (logLoss_spec.1 0 1)
  exact ⟨hp.1 (by norm_num), hn.2.1 (by norm_num),
    hm.2.2.1 (by norm_num) (by norm_num), hp.2.2.2.1 (by norm_num),
    hn.2.2.2.2.1 (by norm_num), hm.2.2.2.2.2 (by norm_num) (by norm_num),
    logLoss_spec.2 19⟩

/-- Claim C3: for the Logistic variant, inside the checked domains: evaluate
returns `−ln(max(1e-4, 1−pred))` for `truth = 0` and `−ln(max(1e-4, pred))`
for `truth = 1`, and gradient returns `(pred−truth)/(pred·(1−pred))`. -/
theorem logisticLoss_formula_spec :
    (∀ pred truth : ℝ, 0 ≤ pred → pred ≤ 1 →
      (truth = 0 →
        LogisticLoss.evaluate pred truth = some (-Real.log (max 0.0001 (1 - pred)))) ∧
      (truth = 1 →
        LogisticLoss.evaluate pred truth = some (-Real.log (max 0.0001 pred)))) ∧
    (∀ pred truth : ℝ, 0 < pred → pred < 1 → truth = 0 ∨ truth = 1 →
      LogisticLoss.gradient pred truth = some ((pred - truth) / (pred * (1 - pred)))) := by
  constructor
  · intro pred truth h0 h1
    constructor
    · rintro rfl
      unfold LogisticLoss.evaluate
      rw [if_pos ⟨⟨h0, h1⟩, Or.inr rfl⟩, if_pos rfl]
    · rintro rfl
      unfold LogisticLoss.evaluate
      rw [if_pos ⟨⟨h0, h1⟩, Or.inl rfl⟩, if_neg (by norm_num), if_pos rfl]
  · intro pred truth h0 h1 ht
    unfold LogisticLoss.gradient
    rcases ht with rfl | rfl
    · rw [if_pos ⟨⟨h0, h1⟩, Or.inr rfl⟩]
    · rw [if_pos ⟨⟨h0, h1⟩, Or.inl rfl⟩]

/-- Witness for Claim C3 at `pred = 1/2`, for both truth values and for the
gradient. -/
theorem logisticLoss_formula_spec_witness :
    LogisticLoss.evaluate (1 / 2) 0 = some (-Real.log (max 0.0001 (1 - 1 / 2))) ∧
    LogisticLoss.evaluate (1 / 2) 1 = some (-Real.log (max 0.0001 (1 / 2))) ∧
    LogisticLoss.gradient (1 / 2) 1 = some ((1 / 2 - 1) / (1 / 2 * (1 - 1 / 2))) := by
  have he := logisticLoss_formula_spec.1 (1 / 2) 0 (by norm_num) (by norm_num)
  have he1 := logisticLoss_formula_spec.1 (1 / 2) 1 (by norm_num) (by norm_num)
  exact ⟨he.1 rfl, he1.2 rfl,
    logisticLoss_formula_spec.2 (1 / 2) 1 (by norm_num) (by norm_num) (Or.inr rfl)⟩

/-- Claim C4: the operations of the Logistic variant fail (return `none`, modelling
the fatal `CHECK`) exactly when the domain is violated: evaluate iff
`pred ∉ [0,1]` or `truth ∉ {0,1}`, gradient iff `pred ∉ (0,1)` or
`truth ∉ {0,1}`; in particular both fail at `truth = 0.5` and at
`pred = 1.5`. -/
theorem logisticLoss_check_spec :
    (∀ pred truth : ℝ, LogisticLoss.evaluate pred truth = none ↔
      ¬(0 ≤ pred ∧ pred ≤ 1) ∨ ¬(truth = 1 ∨ truth = 0)) ∧
    (∀ pred truth : ℝ, LogisticLoss.gradient pred truth = none ↔
      ¬(0 < pred ∧ pred < 1) ∨ ¬(truth = 1 ∨ truth = 0)) ∧
    LogisticLoss.evaluate 0.5 0.5 = none ∧
    LogisticLoss.gradient 0.5 0.5 = none ∧
    LogisticLoss.evaluate 1.5 1 = none ∧
    LogisticLoss.gradient 1.5 1 = none := by
  refine ⟨?_, ?_, ?_, ?_, ?_, ?_⟩
  · intro pred truth
    by_cases h : (0 ≤ pred ∧ pred ≤ 1) ∧ (truth = 1 ∨ truth = 0)
    · unfold LogisticLoss.evaluate
      rw [if_pos h]
      refine ⟨fun hc => absurd hc (Option.some_ne_none _), fun hc => ?_⟩
      tauto
    · unfold LogisticLoss.evaluate
      rw [if_neg h]
      refine ⟨fun _ => ?_, fun _ => rfl⟩
      tauto
  · intro pred truth
    by_cases h : (0 < pred ∧ pred < 1) ∧ (truth = 1 ∨ truth = 0)
    · unfold LogisticLoss.gradient
      rw [if_pos h]
      refine ⟨fun hc => absurd hc (Option.some_ne_none _), fun hc => ?_⟩
      tauto
    · unfold LogisticLoss.gradient
      rw [if_neg h]
      refine ⟨fun _ => ?_, fun _ => rfl⟩
      tauto
  · unfold LogisticLoss.evaluate
    rw [if_neg (by norm_num)]
  · unfold LogisticLoss.gradient
    rw [if_neg (by norm_num)]
  · unfold LogisticLoss.evaluate
    rw [if_neg (by norm_num)]
  · unfold LogisticLoss.gradient
    rw [if_neg (by norm_num)]

/-- Witness for Claim C4: the evaluate failure predicate applied at the
concrete out-of-domain input `pred = 2`, `truth = 1/2`. -/
theorem logisticLoss_check_spec_witness :
    LogisticLoss.evaluate 2 (1 / 2) = none :=
  (logisticLoss_check_spec.1 2 (1 / 2)).mpr (by norm_num)

/-- Claim C5: the factory maps each recognized tag to its variant, and every
unrecognized tag value to a Square instance (whose `loss_type` is "Square")
without failing. -/
theorem loss_create_spec :
    Loss.create SQUARE = squareLoss ∧
    Loss.create LOGISTIC = logisticLoss ∧
    Loss.create LOG = logLoss ∧
    Loss.create HINGE = hingeLoss ∧
    Loss.create SQUARED_HINGE = squaredHingeLoss ∧
    Loss.create CROSS_ENTROPY = crossEntropyLoss ∧
    (∀ lt : LossType, lt ≠ SQUARE → lt ≠ LOGISTIC → lt ≠ LOG → lt ≠ HINGE →
      lt ≠ SQUARED_HINGE → lt ≠ CROSS_ENTROPY →
      Loss.create lt = squareLoss ∧ (Loss.create lt).loss_type = "Square") := by
  refine ⟨rfl, rfl, rfl, rfl, rfl, rfl, ?_⟩
  intro lt h0 h1 h2 h3 h4 h5
  have hc : Loss.create lt = squareLoss := by
    simp only [Loss.create]
    rw [if_neg h0, if_neg h1, if_neg h5, if_neg h2, if_neg h3, if_neg h4]
  exact ⟨hc, by rw [hc]; rfl⟩

/-- Witness for Claim C5: the unrecognized tag value `42` yields the Square
instance. -/
theorem loss_create_spec_witness :
    Loss.create 42 = squareLoss ∧ (Loss.create 42).loss_type = "Square" :=
  loss_create_spec.2.2.2.2.2.2 42 (by decide) (by decide) (by decide) (by decide)
    (by decide) (by decide)

/-- Claim C9 as stated is false: the ε-floor (`ε = 1e-4`) inside the Logistic
evaluate makes it constant on `(0, ε)` for `truth = 1` and on `(1−ε, 1)` for
`truth = 0`: two distinct interior predictions give equal loss values, so
strict monotonicity fails on the full open interval `(0,1)`. -/
theorem logisticLoss_monotone_counterexample :
    (0 : ℝ) < 1 / 40000 ∧ (1 / 40000 : ℝ) < 1 / 20000 ∧ (1 / 20000 : ℝ) < 1 ∧
    LogisticLoss.evaluate (1 / 40000) 1 = LogisticLoss.evaluate (1 / 20000) 1 ∧
    (1 - 1 / 20000 : ℝ) < 1 - 1 / 40000 ∧
    LogisticLoss.evaluate (1 - 1 / 20000) 0 = LogisticLoss.evaluate (1 - 1 / 40000) 0 := by
  refine ⟨by norm_num, by norm_num, by norm_num, ?_, by norm_num, ?_⟩
  · have e1 : LogisticLoss.evaluate (1 / 40000) 1 = some (-Real.log 0.0001) := by
      unfold LogisticLoss.evaluate
      rw [if_pos ⟨⟨by norm_num, by norm_num⟩, Or.inl rfl⟩, if_neg (by norm_num),
        if_pos rfl, max_eq_left (by norm_num)]
    have e2 : LogisticLoss.evaluate (1 / 20000) 1 = some (-Real.log 0.0001) := by
      unfold LogisticLoss.evaluate
      rw [if_pos ⟨⟨by norm_num, by norm_num⟩, Or.inl rfl⟩, if_neg (by norm_num),
        if_pos rfl, max_eq_left (by norm_num)]
    rw [e1, e2]
  · have e1 : LogisticLoss.evaluate (1 - 1 / 20000) 0 = some (-Real.log 0.0001) := by
      unfold LogisticLoss.evaluate
      rw [if_pos ⟨⟨by norm_num, by norm_num⟩, Or.inr rfl⟩, if_pos rfl,
        max_eq_left (by norm_num)]
    have e2 : LogisticLoss.evaluate (1 - 1 / 40000) 0 = some (-Real.log 0.0001) := by
      unfold LogisticLoss.evaluate
      rw [if_pos ⟨⟨by norm_num, by norm_num⟩, Or.inr rfl⟩, if_pos rfl,
        max_eq_left (by norm_num)]
    rw [e1, e2]

/-- Claim C9 amended: for `0 < p1 < p2 < 1`, `evaluate(·,1)` is strictly
decreasing provided `p2 > 1e-4`, and `evaluate(·,0)` is strictly increasing
provided `p1 < 1 − 1e-4` (outside those ranges the ε-floor makes the loss
locally constant). -/
theorem logisticLoss_monotone_amended :
    ∀ p1 p2 : ℝ, 0 < p1 → p1 < p2 → p2 < 1 →
      (0.0001 < p2 →
        (LogisticLoss.evaluate p2 1).getD 0 < (LogisticLoss.evaluate p1 1).getD 0) ∧
      (p1 < 1 - 0.0001 →
        (LogisticLoss.evaluate p1 0).getD 0 < (LogisticLoss.evaluate p2 0).getD 0) := by
  intro p1 p2 h0 h12 h21
  have he1 : ∀ p : ℝ, 0 ≤ p → p ≤ 1 →
      LogisticLoss.evaluate p 1 = some (-Real.log (max 0.0001 p)) := by
    intro p hp0 hp1
    unfold LogisticLoss.evaluate
    rw [if_pos ⟨⟨hp0, hp1⟩, Or.inl rfl⟩, if_neg (by norm_num), if_pos rfl]
  have he0 : ∀ p : ℝ, 0 ≤ p → p ≤ 1 →
      LogisticLoss.evaluate p 0 = some (-Real.log (max 0.0001 (1 - p))) := by
    intro p hp0 hp1
    unfold LogisticLoss.evaluate
    rw [if_pos ⟨⟨hp0, hp1⟩, Or.inr rfl⟩, if_pos rfl]
  constructor
  · intro hp2
    rw [he1 p1 (le_of_lt h0) (by linarith), he1 p2 (by linarith) (le_of_lt h21)]
    simp only [Option.getD_some]
    have hmax : max 0.0001 p1 < max 0.0001 p2 := by
      rw [show max 0.0001 p2 = p2 from max_eq_right (le_of_lt hp2)]
      exact max_lt hp2 h12
    have hpos : (0 : ℝ) < max 0.0001 p1 := lt_max_of_lt_left (by norm_num)
    have := Real.log_lt_log hpos hmax
    linarith
  · intro hp1
    rw [he0 p1 (le_of_lt h0) (by linarith), he0 p2 (by linarith) (le_of_lt h21)]
    simp only [Option.getD_some]
    have hmax : max 0.0001 (1 - p2) < max 0.0001 (1 - p1) := by
      rw [show max 0.0001 (1 - p1) = 1 - p1 from max_eq_right (by linarith)]
      exact max_lt (by linarith) (by linarith)
    have hpos : (0 : ℝ) < max 0.0001 (1 - p2) := lt_max_of_lt_left (by norm_num)
    have := Real.log_lt_log hpos hmax
    linarith

/-- Witness for the amended Claim C9 at `p1 = 1/4`, `p2 = 1/2`. -/
theorem logisticLoss_monotone_amended_witness :
    (LogisticLoss.evaluate (1 / 2) 1).getD 0 < (LogisticLoss.evaluate (1 / 4) 1).getD 0 ∧
    (LogisticLoss.evaluate (1 / 4) 0).getD 0 < (LogisticLoss.evaluate (1 / 2) 0).getD 0 := by
  have h := logisticLoss_monotone_amended (1 / 4) (1 / 2) (by norm_num) (by norm_num)
    (by norm_num)
  exact ⟨h.1 (by norm_num), h.2 (by norm_num)⟩

/-- Claim C10: only the Logistic variant validates its domain — the Square,
CrossEntropy, Log, Hinge and SquaredHinge interface operations succeed (return
`some`) at every real input, while Logistic does fail on an out-of-domain
input. -/
theorem nonLogistic_no_validation :
    (∀ pred truth x : ℝ,
      (squareLoss.evaluate pred truth).isSome = true ∧
      (squareLoss.gradient pred truth).isSome = true ∧
      (squareLoss.predict x).isSome = true ∧
      (crossEntropyLoss.evaluate pred truth).isSome = true ∧
      (crossEntropyLoss.gradient pred truth).isSome = true ∧
      (crossEntropyLoss.predict x).isSome = true ∧
      (logLoss.evaluate pred truth).isSome = true ∧
      (logLoss.gradient pred truth).isSome = true ∧
      (logLoss.predict x).isSome = true ∧
      (hingeLoss.evaluate pred truth).isSome = true ∧
      (hingeLoss.gradient pred truth).isSome = true ∧
      (hingeLoss.predict x).isSome = true ∧
      (squaredHingeLoss.evaluate pred truth).isSome = true ∧
      (squaredHingeLoss.gradient pred truth).isSome = true ∧
      (squaredHingeLoss.predict x).isSome = true) ∧
    logisticLoss.evaluate 2 (1 / 2) = none := by
  constructor
  · intro pred truth x
    exact ⟨rfl, rfl, rfl, rfl, rfl, rfl, rfl, rfl, rfl, rfl, rfl, rfl, rfl, rfl, rfl⟩
  · show LogisticLoss.evaluate 2 (1 / 2) = none
    unfold LogisticLoss.evaluate
    rw [if_neg (by norm_num)]

end libcf
